import Mathlib

/-!
Verification of the clipboard-history capture pipeline (EcoPaste).

The definitions below are a shallow embedding of the TypeScript source:
the multi-format clipboard reader with per-format error isolation and
retry (readClipboardWithRetry in src/plugins/clipboard.ts, with the
Windows image fallback), the classifier and record builder plus the
dedup matcher and upsert (processClipboard in the useClipboard hook),
and the change debouncer with its processing lock (useClipboard).

External capabilities (native clipboard reads, the filesystem existence
check, the durable-path resolver fullName, id and timestamp generation)
are passed in as explicit parameters; machine effects (store writes,
list mutations, warnings, log entries, delays) are recorded in explicit
traces so that ordering and frame properties can be stated.
-/

/-- Content type of a history record, mirroring the string union
text | rtf | html | image | files of the source. -/
inductive CBType
  | text
  | rtf
  | html
  | image
  | files
  deriving DecidableEq

/-- Subtype assigned to plain-text records by getClipboardTextSubtype. -/
inductive TextSubtype
  | url
  | email
  | color
  | path
  deriving DecidableEq

/-- UI filter group of a record (text | files | image in the source). -/
inductive CBGroup
  | text
  | files
  | image
  deriving DecidableEq

/-- Payload of a record: a string for text, rtf, html and image (path),
or a list of paths for files. -/
inductive CBValue
  | str (s : String)
  | paths (l : List String)
  deriving DecidableEq

/-- The canonical persistable unit (DatabaseSchemaHistory in the source).
Timestamps and ids are modelled as naturals. -/
structure HistoryRecord where
  id : Nat
  type : CBType
  subtype : Option TextSubtype
  group : CBGroup
  value : CBValue
  search : Option String
  count : Nat
  width : Option Nat
  height : Option Nat
  favorite : Bool
  createTime : Nat
  deriving DecidableEq

/-- One captured text, rtf or html format: count plus payload. -/
structure FormatItem where
  count : Nat
  value : String
  deriving DecidableEq

/-- One captured image format: byte count, saved path and dimensions. -/
structure ImageItem where
  count : Nat
  value : String
  width : Nat
  height : Nat
  deriving DecidableEq

/-- One captured file-list format: total byte count plus paths. -/
structure FilesItem where
  count : Nat
  value : List String
  deriving DecidableEq

/-- The ReadClipboard snapshot of one successful multi-format read. -/
structure ReadClipboard where
  text : Option FormatItem
  rtf : Option FormatItem
  html : Option FormatItem
  image : Option ImageItem
  files : Option FilesItem
  deriving DecidableEq

/-- Classifier context: the copy-as-plain-text preference, the pure
predicates behind subtype classification (isURL, isEmail, isColor and
the filesystem existence check, a throwing check being observationally
a false answer because the catch yields no subtype), the generated id
and the capture timestamp. -/
structure ClassifyCtx where
  copyPlain : Bool
  isURL : String → Bool
  isEmail : String → Bool
  isColor : String → Bool
  fsExists : String → Bool
  newId : Nat
  now : Nat

/-- Transcription of getClipboardTextSubtype: url, else email, else
color, else existing path, else no subtype. -/
def getClipboardTextSubtype (c : ClassifyCtx) (value : String) : Option TextSubtype :=
  if c.isURL value then some TextSubtype.url
  else if c.isEmail value then some TextSubtype.email
  else if c.isColor value then some TextSubtype.color
  else if c.fsExists value then some TextSubtype.path
  else none

/-- The emptiness guard of processClipboard: isEmpty(result) or every
format value empty; since every present format is a nonempty object,
this holds exactly when no format is present. -/
def snapshotEmpty (r : ReadClipboard) : Bool :=
  r.text.isNone && r.rtf.isNone && r.html.isNone && r.image.isNone && r.files.isNone

/-- JavaScript string disjunction a || b where a may be undefined and
the empty string is falsy. -/
def jsOr (a : Option String) (b : String) : String :=
  match a with
  | some s => if s = "" then b else s
  | none => b

/-- Transcription of the branch cascade of processClipboard that fills
in the candidate record. The base object carries createTime, favorite
false, group text, the fresh id and search set to the text payload when
present; each branch assigns its format fields on top. Returns none
when no branch sets a type. -/
def buildRecord (c : ClassifyCtx) (r : ReadClipboard) : Option HistoryRecord :=
  let baseSearch := r.text.map FormatItem.value
  match r.files with
  | some f => some {
      id := c.newId, type := CBType.files, subtype := none, group := CBGroup.files,
      value := CBValue.paths f.value, search := some (String.intercalate " " f.value),
      count := f.count, width := none, height := none, favorite := false,
      createTime := c.now }
  | none =>
    match r.html, c.copyPlain with
    | some h, false => some {
        id := c.newId, type := CBType.html, subtype := none, group := CBGroup.text,
        value := CBValue.str h.value, search := baseSearch, count := h.count,
        width := none, height := none, favorite := false, createTime := c.now }
    | _, _ =>
      match r.rtf, c.copyPlain with
      | some rt, false => some {
          id := c.newId, type := CBType.rtf, subtype := none, group := CBGroup.text,
          value := CBValue.str rt.value, search := baseSearch, count := rt.count,
          width := none, height := none, favorite := false, createTime := c.now }
      | _, _ =>
        match r.text with
        | some t => some {
            id := c.newId, type := CBType.text,
            subtype := getClipboardTextSubtype c t.value, group := CBGroup.text,
            value := CBValue.str t.value, search := baseSearch, count := t.count,
            width := none, height := none, favorite := false, createTime := c.now }
        | none =>
          match r.image with
          | some i => some {
              id := c.newId, type := CBType.image, subtype := none, group := CBGroup.image,
              value := CBValue.str i.value, search := baseSearch, count := i.count,
              width := some i.width, height := some i.height, favorite := false,
              createTime := c.now }
          | none =>
            if c.copyPlain && (r.html.isSome || r.rtf.isSome) then
              let fallbackValue :=
                jsOr baseSearch (jsOr (r.html.map FormatItem.value)
                  (jsOr (r.rtf.map FormatItem.value) ""))
              some {
                id := c.newId, type := CBType.text,
                subtype := getClipboardTextSubtype c fallbackValue, group := CBGroup.text,
                value := CBValue.str fallbackValue, search := baseSearch,
                count := fallbackValue.length, width := none, height := none,
                favorite := false, createTime := c.now }
            else
              none

/-- Model of JSON.stringify on a string array, as used to serialize a
file list for storage. -/
def jsonStringify (l : List String) : String :=
  "[" ++ String.intercalate "," (l.map (fun s => "\"" ++ s ++ "\"")) ++ "]"

/-- The storage-ready projection applied to the deep clone sqlData:
for images the value is resolved through fullName to a durable path,
for file lists the value is serialized with JSON.stringify; all other
fields are copied unchanged. -/
def storageReady (fullNameFn : String → String) (data : HistoryRecord) : HistoryRecord :=
  let s1 :=
    if data.type = CBType.image then
      match data.value with
      | CBValue.str p => { data with value := CBValue.str (fullNameFn p) }
      | CBValue.paths _ => data
    else data
  if s1.type = CBType.files then
    match s1.value with
    | CBValue.paths l => { s1 with value := CBValue.str (jsonStringify l) }
    | CBValue.str _ => s1
  else s1

/-- Transcription of the selectHistory query-builder callback: for an
image candidate, a row matches when its type is image and either its
value equals the storage-ready value or its width, height and count all
equal the candidate record's; for every other type, a row matches when
it agrees on type and storage-ready value. -/
def dedupWhere (data sqlData : HistoryRecord) (row : HistoryRecord) : Bool :=
  if sqlData.type = CBType.image then
    decide (row.type = CBType.image) &&
      (decide (row.value = sqlData.value) ||
        (decide (row.width = data.width) && decide (row.height = data.height) &&
          decide (row.count = data.count)))
  else
    decide (row.type = sqlData.type) && decide (row.value = sqlData.value)

/-- Active group filter of the UI: all, or one specific group. -/
inductive GroupFilter
  | all
  | group (g : CBGroup)
  deriving DecidableEq

/-- Observable effects of one pipeline pass, in execution order. -/
inductive Effect
  | warnReadFailed
  | logNoType
  | logZeroImage
  | storeQuery
  | listRemove (id : Nat)
  | listUnshift (r : HistoryRecord)
  | storeUpdateTime (id : Nat) (t : Nat)
  | storeInsert (r : HistoryRecord)
  deriving DecidableEq

/-- Result of one pipeline pass: ordered effect trace, resulting
in-memory list and resulting store contents. -/
structure PipeOut where
  effects : List Effect
  list : List HistoryRecord
  store : List HistoryRecord
  deriving DecidableEq

/-- Context of one pipeline pass: classifier context, the durable-path
resolver, the persistent store rows, the active filter and the current
in-memory list. -/
structure PipeCtx where
  cctx : ClassifyCtx
  fullNameFn : String → String
  store : List HistoryRecord
  filter : GroupFilter
  list : List HistoryRecord

/-- Transcription of the body of processClipboard after the read: early
returns for a failed read, an empty snapshot, an unclassified snapshot
and a zero-byte image; otherwise clone to sqlData, apply the
storage-ready projection, query the store for the first match, and
either refresh the matched row's createTime (reconciling the visible
list by removing the matched id and unshifting the new capture's fields
under that id) or unshift the candidate when visible and insert the
storage-ready row. -/
def processRead (ctx : PipeCtx) (read : Except Nat ReadClipboard) : PipeOut :=
  match read with
  | Except.error _ =>
    { effects := [Effect.warnReadFailed], list := ctx.list, store := ctx.store }
  | Except.ok r =>
    if snapshotEmpty r then
      { effects := [], list := ctx.list, store := ctx.store }
    else
      match buildRecord ctx.cctx r with
      | none =>
        { effects := [Effect.logNoType], list := ctx.list, store := ctx.store }
      | some data =>
        if data.type = CBType.image ∧ data.count = 0 then
          { effects := [Effect.logZeroImage], list := ctx.list, store := ctx.store }
        else
          let sqlData := storageReady ctx.fullNameFn data
          let matched := ctx.store.find? (dedupWhere data sqlData)
          let visible := ctx.filter = GroupFilter.all ∨ ctx.filter = GroupFilter.group data.group
          match matched with
          | some m =>
            if visible then
              { effects := [Effect.storeQuery, Effect.listRemove m.id,
                  Effect.listUnshift { data with id := m.id },
                  Effect.storeUpdateTime m.id data.createTime],
                list := { data with id := m.id } ::
                  ctx.list.filter (fun e => e.id ≠ m.id),
                store := ctx.store.map (fun row =>
                  if row.id = m.id then { row with createTime := data.createTime } else row) }
            else
              { effects := [Effect.storeQuery, Effect.storeUpdateTime m.id data.createTime],
                list := ctx.list,
                store := ctx.store.map (fun row =>
                  if row.id = m.id then { row with createTime := data.createTime } else row) }
          | none =>
            if visible then
              { effects := [Effect.storeQuery, Effect.listUnshift data,
                  Effect.storeInsert sqlData],
                list := data :: ctx.list,
                store := ctx.store ++ [sqlData] }
            else
              { effects := [Effect.storeQuery, Effect.storeInsert sqlData],
                list := ctx.list,
                store := ctx.store ++ [sqlData] }

/-- Outcome of one probe-plus-read of a single format inside one read
attempt: the format is absent, the read succeeded with a payload, or
the probe or read threw (error tokens are naturals so the surfaced
error can be tracked). -/
inductive Slot (α : Type)
  | absent
  | ok (v : α)
  | fail (e : Nat)
  deriving DecidableEq

/-- Raw result of readImage or of the Windows fallback reader. -/
structure ImgRead where
  path : String
  size : Nat
  width : Nat
  height : Nat
  deriving DecidableEq

/-- Raw result of readFiles. -/
structure FilesRead where
  paths : List String
  size : Nat
  deriving DecidableEq

/-- Environment of a single read attempt: an outcome per format, plus
the Windows image fallback state. hasClipboardImageWin and
readClipboardImageWin swallow their own errors in the source, so the
fallback is a plain boolean plus an optional result. -/
structure AttemptEnv where
  text : Slot String
  rtf : Slot String
  html : Slot String
  image : Slot ImgRead
  hasWin : Bool
  winImage : Option ImgRead
  files : Slot FilesRead
  deriving DecidableEq

/-- Text stage: a failure is always rethrown; on success the count is
the text length. -/
def textStage (s : Slot String) : Except Nat (Option FormatItem) :=
  match s with
  | Slot.absent => Except.ok none
  | Slot.ok v => Except.ok (some { count := v.length, value := v })
  | Slot.fail e => Except.error e

/-- Rtf stage: count defaults to the captured text count when present,
else the rtf length; a failure is rethrown only when no text was
captured. -/
def rtfStage (t : Option FormatItem) (s : Slot String) : Except Nat (Option FormatItem) :=
  match s with
  | Slot.absent => Except.ok none
  | Slot.ok v => Except.ok (some { count := (t.map FormatItem.count).getD v.length, value := v })
  | Slot.fail e => if t.isSome then Except.ok none else Except.error e

/-- Html stage: identical escalation to the rtf stage. -/
def htmlStage (t : Option FormatItem) (s : Slot String) : Except Nat (Option FormatItem) :=
  match s with
  | Slot.absent => Except.ok none
  | Slot.ok v => Except.ok (some { count := (t.map FormatItem.count).getD v.length, value := v })
  | Slot.fail e => if t.isSome then Except.ok none else Except.error e

/-- The Windows image fallback of the image stage: when the primary
probe reports no image, the fallback read is folded in only when the
fallback probe answers yes and the read yields a result of nonzero
size. -/
def winFold (hasWin : Bool) (win : Option ImgRead) : Option ImageItem :=
  if hasWin then
    match win with
    | some w =>
      if 0 < w.size then
        some { count := w.size, value := w.path, width := w.width, height := w.height }
      else none
    | none => none
  else none

/-- Image stage continued: a primary read is folded in directly; a
primary failure is rethrown only when none of text, html, rtf was
captured. -/
def imageStage (t r h : Option FormatItem) (s : Slot ImgRead) (hasWin : Bool)
    (win : Option ImgRead) : Except Nat (Option ImageItem) :=
  match s with
  | Slot.ok v =>
    Except.ok (some { count := v.size, value := v.path, width := v.width, height := v.height })
  | Slot.absent => Except.ok (winFold hasWin win)
  | Slot.fail e =>
    if t.isSome || h.isSome || r.isSome then Except.ok none else Except.error e

/-- Files stage: a failure is rethrown only when none of text, html,
rtf, image was captured. -/
def filesStage (t r h : Option FormatItem) (i : Option ImageItem)
    (s : Slot FilesRead) : Except Nat (Option FilesItem) :=
  match s with
  | Slot.absent => Except.ok none
  | Slot.ok v => Except.ok (some { count := v.size, value := v.paths })
  | Slot.fail e =>
    if t.isSome || h.isSome || r.isSome || i.isSome then Except.ok none
    else Except.error e

/-- One whole multi-format read attempt of readClipboardWithRetry:
text, rtf, html, image and file formats in order, each stage isolated
per the escalation rule, assembling a snapshot on success. -/
def readAttempt (env : AttemptEnv) : Except Nat ReadClipboard :=
  match textStage env.text with
  | Except.error e => Except.error e
  | Except.ok t =>
    match rtfStage t env.rtf with
    | Except.error e => Except.error e
    | Except.ok r =>
      match htmlStage t env.html with
      | Except.error e => Except.error e
      | Except.ok h =>
        match imageStage t r h env.image env.hasWin env.winImage with
        | Except.error e => Except.error e
        | Except.ok i =>
          match filesStage t r h i env.files with
          | Except.error e => Except.error e
          | Except.ok f =>
            Except.ok { text := t, rtf := r, html := h, image := i, files := f }

/-- Retry count of readClipboardWithRetry. -/
def RETRY_COUNT : Nat := 3

/-- Inter-attempt delay of readClipboardWithRetry in milliseconds. -/
def RETRY_DELAY_MS : Nat := 200

/-- Trace of one call to readClipboardWithRetry: the surfaced result,
the number of attempts made and the delays performed. -/
structure RetryTrace where
  result : Except Nat ReadClipboard
  attempts : Nat
  delays : List Nat

/-- The retry loop from a given attempt index with the remaining number
of attempts as fuel: run an attempt, return the first success, remember
the last error, delay between attempts, and surface the last error once
the attempts are exhausted. -/
def retryFrom (envs : Nat → AttemptEnv) : Nat → Nat → Option Nat → RetryTrace
  | 0, _, lastError =>
    { result := Except.error (lastError.getD 0), attempts := 0, delays := [] }
  | fuel + 1, attempt, _ =>
    match readAttempt (envs attempt) with
    | Except.ok r => { result := Except.ok r, attempts := 1, delays := [] }
    | Except.error e =>
      let rest := retryFrom envs fuel (attempt + 1) (some e)
      { result := rest.result, attempts := rest.attempts + 1,
        delays := (if fuel ≠ 0 then [RETRY_DELAY_MS] else []) ++ rest.delays }

/-- Transcription of readClipboardWithRetry: up to RETRY_COUNT whole
attempts starting at attempt 1, where the environment of attempt k
models the clipboard state observed by that attempt. -/
def readWithRetry (envs : Nat → AttemptEnv) : RetryTrace :=
  retryFrom envs RETRY_COUNT 1 none

/-- A full pipeline pass: the retried multi-format read followed by the
processing body. -/
def runPipeline (ctx : PipeCtx) (envs : Nat → AttemptEnv) : PipeOut :=
  processRead ctx (readWithRetry envs).result

/-- Debounce delay of the clipboard-changed listener in milliseconds. -/
def DEBOUNCE_MS : Nat := 300

/-- State of the debouncer and serializer: the pending timer's absolute
fire instant, the instant until which a processing pass occupies the
pipeline (busy exactly at instants strictly below it), the start
instants of pipeline invocations that ran, the fire instants skipped by
the processing lock, and the number of beforeRead firings. -/
structure DebSt where
  timer : Option Nat
  busyEnd : Nat
  invs : List Nat
  skips : List Nat
  reads : Nat
  deriving DecidableEq

/-- The debounce timer callback firing at instant f: cleared timer, and
either the firing is skipped because a pass is still running, or a new
pass starts and occupies the pipeline for its duration (dur k is the
duration of the k-th pass). -/
def fireTimer (dur : Nat → Nat) (s : DebSt) (f : Nat) : DebSt :=
  if f < s.busyEnd then
    { s with skips := s.skips ++ [f] }
  else
    { s with invs := s.invs ++ [f], busyEnd := f + dur s.invs.length }

/-- The clipboard-changed listener at instant t: a pending timer due
strictly before t fires first; then beforeRead fires synchronously and
the timer is restarted at t plus the debounce delay (a timer due at or
after t is simply cancelled, as clearTimeout precedes its callback). -/
def notifyAt (dur : Nat → Nat) (s : DebSt) (t : Nat) : DebSt :=
  let s1 :=
    match s.timer with
    | some f =>
      if f < t then fireTimer dur { s with timer := none } f
      else { s with timer := none }
    | none => s
  { s1 with reads := s1.reads + 1, timer := some (t + DEBOUNCE_MS) }

/-- After the last notification the pending timer, if any, eventually
fires undisturbed. -/
def flushTimer (dur : Nat → Nat) (s : DebSt) : DebSt :=
  match s.timer with
  | some f => fireTimer dur { s with timer := none } f
  | none => s

/-- The initial debouncer state: no timer, idle, nothing recorded. -/
def debStart : DebSt :=
  { timer := none, busyEnd := 0, invs := [], skips := [], reads := 0 }

/-- Run the debouncer over a chronological list of clipboard-changed
notification instants, then let the final pending timer fire. -/
def runDeb (dur : Nat → Nat) (ts : List Nat) : DebSt :=
  flushTimer dur (ts.foldl (notifyAt dur) debStart)

/-- Claim-side dedup rule for an image candidate, worded from the spec:
the stored row has type image and either its value equals the
candidate's storage-ready value or its width, height and count triple
equals the candidate's. -/
def specImageMatch (data sqlData row : HistoryRecord) : Prop :=
  row.type = CBType.image ∧
    (row.value = sqlData.value ∨
      (row.width = data.width ∧ row.height = data.height ∧ row.count = data.count))

/-- Claim-side dedup rule for a text, rtf, html or files candidate:
the stored row agrees with the candidate on type and storage-ready
value. -/
def specPlainMatch (data sqlData row : HistoryRecord) : Prop :=
  row.type = data.type ∧ row.value = sqlData.value

/-- The storage-ready projection never changes the type field. -/
theorem storageReady_type (f : String → String) (d : HistoryRecord) :
    (storageReady f d).type = d.type := by
  unfold storageReady
  by_cases h : d.type = CBType.image <;> simp [h]
  · cases hv : d.value <;> simp [h]
  · split <;> rename_i h2
    · split <;> rename_i hv <;> simp
    · rfl

/-- C1: the dedup query matches exactly per the type-specific rules:
for an image candidate, a stored row matches if and only if it has
type image and either equal storage-ready value or equal width,
height, count triple; for a text, rtf, html or files candidate, a row
matches if and only if it agrees on type and storage-ready value; and
the query over a store finds a row exactly when some row satisfies
the rule. -/
theorem claim1_dedup_key (f : String → String) (data row : HistoryRecord) :
    (data.type = CBType.image →
      (dedupWhere data (storageReady f data) row = true ↔
        specImageMatch data (storageReady f data) row)) ∧
    (data.type ≠ CBType.image →
      (dedupWhere data (storageReady f data) row = true ↔
        specPlainMatch data (storageReady f data) row)) ∧
    (∀ store : List HistoryRecord,
      (store.find? (dedupWhere data (storageReady f data))).isSome ↔
        ∃ r ∈ store, dedupWhere data (storageReady f data) r = true) := by
  refine ⟨?_, ?_, ?_⟩
  · intro h
    have ht : (storageReady f data).type = CBType.image := by
      rw [storageReady_type]; exact h
    simp [dedupWhere, ht, specImageMatch, and_assoc]
  · intro h
    have ht : (storageReady f data).type ≠ CBType.image := by
      rw [storageReady_type]; exact h
    simp [dedupWhere, ht, specPlainMatch, storageReady_type, h]
  · intro store
    exact List.find?_isSome

/-- Witness for C1 at a concrete image candidate and stored rows: a
stored image row with a different durable path but identical width,
height and count matches; one with different dimensions does not. -/
theorem claim1_dedup_key_witness :
    (dedupWhere
        { id := 1, type := CBType.image, subtype := none, group := CBGroup.image,
          value := CBValue.str "tmpA.png", search := none, count := 2048,
          width := some 100, height := some 50, favorite := false, createTime := 10 }
        (storageReady (fun s => String.append "store/" s)
          { id := 1, type := CBType.image, subtype := none, group := CBGroup.image,
            value := CBValue.str "tmpA.png", search := none, count := 2048,
            width := some 100, height := some 50, favorite := false, createTime := 10 })
        { id := 7, type := CBType.image, subtype := none, group := CBGroup.image,
          value := CBValue.str "store/other.png", search := none, count := 2048,
          width := some 100, height := some 50, favorite := true, createTime := 3 } = true ↔
      specImageMatch
        { id := 1, type := CBType.image, subtype := none, group := CBGroup.image,
          value := CBValue.str "tmpA.png", search := none, count := 2048,
          width := some 100, height := some 50, favorite := false, createTime := 10 }
        (storageReady (fun s => String.append "store/" s)
          { id := 1, type := CBType.image, subtype := none, group := CBGroup.image,
            value := CBValue.str "tmpA.png", search := none, count := 2048,
            width := some 100, height := some 50, favorite := false, createTime := 10 })
        { id := 7, type := CBType.image, subtype := none, group := CBGroup.image,
          value := CBValue.str "store/other.png", search := none, count := 2048,
          width := some 100, height := some 50, favorite := true, createTime := 3 }) ∧
    specImageMatch
      { id := 1, type := CBType.image, subtype := none, group := CBGroup.image,
        value := CBValue.str "tmpA.png", search := none, count := 2048,
        width := some 100, height := some 50, favorite := false, createTime := 10 }
      (storageReady (fun s => String.append "store/" s)
        { id := 1, type := CBType.image, subtype := none, group := CBGroup.image,
          value := CBValue.str "tmpA.png", search := none, count := 2048,
          width := some 100, height := some 50, favorite := false, createTime := 10 })
      { id := 7, type := CBType.image, subtype := none, group := CBGroup.image,
        value := CBValue.str "store/other.png", search := none, count := 2048,
        width := some 100, height := some 50, favorite := true, createTime := 3 } := by
  constructor
  · exact (claim1_dedup_key (fun s => String.append "store/" s) _ _).1 (by decide)
  · constructor
    · rfl
    · right
      exact ⟨rfl, rfl, rfl⟩

/-- An entirely empty snapshot reaches no classifier branch. -/
theorem buildRecord_of_empty (c : ClassifyCtx) (r : ReadClipboard)
    (h : snapshotEmpty r = true) : buildRecord c r = none := by
  unfold snapshotEmpty at h
  simp only [Bool.and_eq_true, Option.isNone_iff_eq_none] at h
  obtain ⟨⟨⟨⟨h1, h2⟩, h3⟩, h4⟩, h5⟩ := h
  simp [buildRecord, h1, h2, h3, h4, h5]

/-- A snapshot that classifies to a record is not empty. -/
theorem snapshotEmpty_false_of_buildRecord (c : ClassifyCtx) (r : ReadClipboard)
    (data : HistoryRecord) (hb : buildRecord c r = some data) :
    snapshotEmpty r = false := by
  cases h : snapshotEmpty r
  · rfl
  · rw [buildRecord_of_empty c r h] at hb
    exact Option.noConfusion hb

/-- C5: a pass whose classified record is an image of count zero
performs no store query, no store or list mutation: its only effect is
the log entry, and list and store are returned unchanged. -/
theorem claim5_zero_byte_image (ctx : PipeCtx) (r : ReadClipboard) (data : HistoryRecord)
    (hb : buildRecord ctx.cctx r = some data)
    (ht : data.type = CBType.image) (hc : data.count = 0) :
    processRead ctx (Except.ok r) =
      { effects := [Effect.logZeroImage], list := ctx.list, store := ctx.store } := by
  have hne := snapshotEmpty_false_of_buildRecord ctx.cctx r data hb
  simp [processRead, hne, hb, ht, hc]

/-- Concrete classifier context used by witnesses: preference off, all
subtype predicates false, fresh id 1, timestamp 100. -/
def witClassify : ClassifyCtx :=
  { copyPlain := false, isURL := fun _ => false, isEmail := fun _ => false,
    isColor := fun _ => false, fsExists := fun _ => false, newId := 1, now := 100 }

/-- Concrete zero-byte image snapshot used by the C5 witness. -/
def witZeroImageSnap : ReadClipboard :=
  { text := none, rtf := none, html := none,
    image := some { count := 0, value := "tmp.png", width := 8, height := 8 },
    files := none }

/-- Witness for C5: a concrete zero-byte image snapshot yields only the
log effect and leaves list and store untouched. -/
theorem claim5_zero_byte_image_witness :
    processRead
      { cctx := witClassify, fullNameFn := fun s => s, store := [], filter := GroupFilter.all,
        list := [] }
      (Except.ok witZeroImageSnap) =
      { effects := [Effect.logZeroImage], list := [], store := [] } :=
  claim5_zero_byte_image
    { cctx := witClassify, fullNameFn := fun s => s, store := [], filter := GroupFilter.all,
      list := [] }
    witZeroImageSnap
    { id := 1, type := CBType.image, subtype := none, group := CBGroup.image,
      value := CBValue.str "tmp.png", search := none, count := 0,
      width := some 8, height := some 8, favorite := false, createTime := 100 }
    rfl rfl rfl

/-- C6: when the dedup query matches, the trace holds exactly one store
mutation, the createTime refresh of the matched id; every stored row
keeps its id, type, subtype, group, value, search, count, width, height
and favorite, and only the matched row's createTime becomes the new
capture's; and when the candidate's group is visible, the resulting
list is a fresh entry carrying the new capture's fields under the
matched id at the front, with every entry of the matched id removed. -/
theorem claim6_match_refresh (ctx : PipeCtx) (r : ReadClipboard) (data m : HistoryRecord)
    (hb : buildRecord ctx.cctx r = some data)
    (hz : ¬(data.type = CBType.image ∧ data.count = 0))
    (hm : ctx.store.find? (dedupWhere data (storageReady ctx.fullNameFn data)) = some m) :
    ((processRead ctx (Except.ok r)).effects.filter (fun e =>
        match e with
        | Effect.storeUpdateTime _ _ => true
        | Effect.storeInsert _ => true
        | _ => false) = [Effect.storeUpdateTime m.id data.createTime]) ∧
    (processRead ctx (Except.ok r)).store = ctx.store.map (fun row =>
        if row.id = m.id then { row with createTime := data.createTime } else row) ∧
    (∀ row ∈ ctx.store, ∃ row' ∈ (processRead ctx (Except.ok r)).store,
        row'.id = row.id ∧ row'.type = row.type ∧ row'.subtype = row.subtype ∧
        row'.group = row.group ∧ row'.value = row.value ∧ row'.search = row.search ∧
        row'.count = row.count ∧ row'.width = row.width ∧ row'.height = row.height ∧
        row'.favorite = row.favorite ∧
        row'.createTime = (if row.id = m.id then data.createTime else row.createTime)) ∧
    ((ctx.filter = GroupFilter.all ∨ ctx.filter = GroupFilter.group data.group) →
      (processRead ctx (Except.ok r)).list =
        { data with id := m.id } :: ctx.list.filter (fun e => e.id ≠ m.id)) := by
  have hne := snapshotEmpty_false_of_buildRecord ctx.cctx r data hb
  have hout : processRead ctx (Except.ok r) =
      if ctx.filter = GroupFilter.all ∨ ctx.filter = GroupFilter.group data.group then
        { effects := [Effect.storeQuery, Effect.listRemove m.id,
            Effect.listUnshift { data with id := m.id },
            Effect.storeUpdateTime m.id data.createTime],
          list := { data with id := m.id } :: ctx.list.filter (fun e => e.id ≠ m.id),
          store := ctx.store.map (fun row =>
            if row.id = m.id then { row with createTime := data.createTime } else row) }
      else
        { effects := [Effect.storeQuery, Effect.storeUpdateTime m.id data.createTime],
          list := ctx.list,
          store := ctx.store.map (fun row =>
            if row.id = m.id then { row with createTime := data.createTime } else row) } := by
    simp [processRead, hne, hb, hz, hm]
  refine ⟨?_, ?_, ?_, ?_⟩
  · rw [hout]
    split <;> simp [List.filter]
  · rw [hout]
    split <;> rfl
  · intro row hrow
    refine ⟨if row.id = m.id then { row with createTime := data.createTime } else row, ?_, ?_⟩
    · rw [hout]
      have : (if row.id = m.id then { row with createTime := data.createTime } else row) ∈
          ctx.store.map (fun row =>
            if row.id = m.id then { row with createTime := data.createTime } else row) :=
        List.mem_map_of_mem _ hrow
      split <;> simpa using this
    · by_cases hid : row.id = m.id <;> simp [hid]
  · intro hv
    rw [hout]
    simp [hv]

/-- Concrete stored row used by the C6 witness: the text hello,
already a favorite. -/
def witHelloRow : HistoryRecord :=
  { id := 42, type := CBType.text, subtype := none, group := CBGroup.text,
    value := CBValue.str "hello", search := some "hello", count := 5,
    width := none, height := none, favorite := true, createTime := 7 }

/-- Concrete snapshot used by the C6 witness: the plain text hello. -/
def witHelloSnap : ReadClipboard :=
  { text := some { count := 5, value := "hello" }, rtf := none, html := none,
    image := none, files := none }

/-- Concrete pipeline context used by the C6 witness: the hello row is
already stored, the filter shows all groups, the list is empty. -/
def witHelloCtx : PipeCtx :=
  { cctx := witClassify, fullNameFn := fun s => s, store := [witHelloRow],
    filter := GroupFilter.all, list := [] }

/-- Candidate record classified from the C6 witness snapshot. -/
def witHelloData : HistoryRecord :=
  { id := 1, type := CBType.text, subtype := none, group := CBGroup.text,
    value := CBValue.str "hello", search := some "hello", count := 5,
    width := none, height := none, favorite := false, createTime := 100 }

/-- Witness for C6: capturing the text hello when an equal text row is
stored refreshes only that row's createTime, keeps its id and favorite,
and reinserts the fresh entry under the stored id at the front. -/
theorem claim6_match_refresh_witness :
    ((processRead witHelloCtx (Except.ok witHelloSnap)).effects.filter (fun e =>
        match e with
        | Effect.storeUpdateTime _ _ => true
        | Effect.storeInsert _ => true
        | _ => false) = [Effect.storeUpdateTime 42 100]) ∧
    (processRead witHelloCtx (Except.ok witHelloSnap)).store =
      [{ witHelloRow with createTime := 100 }] := by
  have h := claim6_match_refresh witHelloCtx witHelloSnap witHelloData witHelloRow
    rfl (by decide) rfl
  exact ⟨h.1, by rw [h.2.1]; rfl⟩

/-- C9: when the active filter is neither all nor the candidate's
group, the in-memory list is left entirely unchanged, no list effect is
emitted, while the store write still occurs: an insert of the
storage-ready row when no match exists, a createTime update when a
match exists. -/
theorem claim9_invisible_group (ctx : PipeCtx) (r : ReadClipboard) (data : HistoryRecord)
    (hb : buildRecord ctx.cctx r = some data)
    (hz : ¬(data.type = CBType.image ∧ data.count = 0))
    (hf1 : ctx.filter ≠ GroupFilter.all)
    (hf2 : ctx.filter ≠ GroupFilter.group data.group) :
    (processRead ctx (Except.ok r)).list = ctx.list ∧
    (∀ i, Effect.listRemove i ∉ (processRead ctx (Except.ok r)).effects) ∧
    (∀ rec, Effect.listUnshift rec ∉ (processRead ctx (Except.ok r)).effects) ∧
    (match ctx.store.find? (dedupWhere data (storageReady ctx.fullNameFn data)) with
     | some m =>
       (processRead ctx (Except.ok r)).effects =
         [Effect.storeQuery, Effect.storeUpdateTime m.id data.createTime] ∧
       (processRead ctx (Except.ok r)).store = ctx.store.map (fun row =>
         if row.id = m.id then { row with createTime := data.createTime } else row)
     | none =>
       (processRead ctx (Except.ok r)).effects =
         [Effect.storeQuery, Effect.storeInsert (storageReady ctx.fullNameFn data)] ∧
       (processRead ctx (Except.ok r)).store =
         ctx.store ++ [storageReady ctx.fullNameFn data]) := by
  have hne := snapshotEmpty_false_of_buildRecord ctx.cctx r data hb
  have hv : ¬(ctx.filter = GroupFilter.all ∨ ctx.filter = GroupFilter.group data.group) := by
    rintro (h | h)
    · exact hf1 h
    · exact hf2 h
  cases hm : ctx.store.find? (dedupWhere data (storageReady ctx.fullNameFn data)) with
  | none => simp [processRead, hne, hb, hz, hm, hv]
  | some m => simp [processRead, hne, hb, hz, hm, hv]

/-- Concrete pipeline context used by witnesses for an invisible group:
the filter shows only the image group while the candidate is text. -/
def witImageFilterCtx : PipeCtx :=
  { cctx := witClassify, fullNameFn := fun s => s, store := [witHelloRow],
    filter := GroupFilter.group CBGroup.image, list := [witHelloData] }

/-- Witness for C9: with the image filter active, a repeat text capture
leaves the list untouched but still refreshes the stored row. -/
theorem claim9_invisible_group_witness :
    (processRead witImageFilterCtx (Except.ok witHelloSnap)).list = [witHelloData] ∧
    (processRead witImageFilterCtx (Except.ok witHelloSnap)).effects =
      [Effect.storeQuery, Effect.storeUpdateTime 42 100] := by
  have h := claim9_invisible_group witImageFilterCtx witHelloSnap witHelloData
    rfl (by decide) (by decide) (by decide)
  refine ⟨h.1, ?_⟩
  have h4 := h.2.2.2
  rw [show witImageFilterCtx.store.find?
      (dedupWhere witHelloData (storageReady witImageFilterCtx.fullNameFn witHelloData)) =
      some witHelloRow from rfl] at h4
  exact h4.1

/-- Counterexample to C7 as stated: in a concrete matched visible pass,
the trace places the store's createTime update (position 3) after the
in-memory reconciliation (remove at position 1, reinsert at position
2), so the store update does not happen before the reconciliation. -/
theorem claim7_store_order_counterexample :
    (processRead witHelloCtx (Except.ok witHelloSnap)).effects =
      [Effect.storeQuery, Effect.listRemove 42,
       Effect.listUnshift { witHelloData with id := 42 },
       Effect.storeUpdateTime 42 100] ∧
    ¬ ((processRead witHelloCtx (Except.ok witHelloSnap)).effects.indexOf
          (Effect.storeUpdateTime 42 100) <
        (processRead witHelloCtx (Except.ok witHelloSnap)).effects.indexOf
          (Effect.listRemove 42)) := by
  constructor
  · rfl
  · decide

/-- C7 amended: when no match exists the in-memory list insertion
happens before the store insert; when a match exists the in-memory
reconciliation (remove-by-id and reinsert at front) happens before the
store's createTime update, the store write being the last effect in
both cases. -/
theorem claim7_effect_order (ctx : PipeCtx) (r : ReadClipboard) (data : HistoryRecord)
    (hb : buildRecord ctx.cctx r = some data)
    (hz : ¬(data.type = CBType.image ∧ data.count = 0))
    (hv : ctx.filter = GroupFilter.all ∨ ctx.filter = GroupFilter.group data.group) :
    (match ctx.store.find? (dedupWhere data (storageReady ctx.fullNameFn data)) with
     | some m =>
       (processRead ctx (Except.ok r)).effects =
         [Effect.storeQuery, Effect.listRemove m.id,
          Effect.listUnshift { data with id := m.id },
          Effect.storeUpdateTime m.id data.createTime]
     | none =>
       (processRead ctx (Except.ok r)).effects =
         [Effect.storeQuery, Effect.listUnshift data,
          Effect.storeInsert (storageReady ctx.fullNameFn data)]) := by
  have hne := snapshotEmpty_false_of_buildRecord ctx.cctx r data hb
  cases hm : ctx.store.find? (dedupWhere data (storageReady ctx.fullNameFn data)) with
  | none => simp [processRead, hne, hb, hz, hm, hv]
  | some m => simp [processRead, hne, hb, hz, hm, hv]

/-- Concrete pipeline context with an empty store used by witnesses of
the fresh-insert case. -/
def witEmptyCtx : PipeCtx :=
  { cctx := witClassify, fullNameFn := fun s => s, store := [],
    filter := GroupFilter.all, list := [] }

/-- Witness for the amended C7: a fresh text capture unshifts the entry
before the store insert. -/
theorem claim7_effect_order_witness :
    (processRead witEmptyCtx (Except.ok witHelloSnap)).effects =
      [Effect.storeQuery, Effect.listUnshift witHelloData,
       Effect.storeInsert (storageReady witEmptyCtx.fullNameFn witHelloData)] := by
  have h := claim7_effect_order witEmptyCtx witHelloSnap witHelloData rfl (by decide)
    (Or.inl rfl)
  rw [show witEmptyCtx.store.find?
      (dedupWhere witHelloData (storageReady witEmptyCtx.fullNameFn witHelloData)) =
      none from rfl] at h
  exact h

/-- The storage-ready projection keeps every field except value. -/
theorem storageReady_frame (f : String → String) (d : HistoryRecord) :
    (storageReady f d).id = d.id ∧ (storageReady f d).type = d.type ∧
    (storageReady f d).subtype = d.subtype ∧ (storageReady f d).group = d.group ∧
    (storageReady f d).search = d.search ∧ (storageReady f d).count = d.count ∧
    (storageReady f d).width = d.width ∧ (storageReady f d).height = d.height ∧
    (storageReady f d).favorite = d.favorite ∧
    (storageReady f d).createTime = d.createTime := by
  unfold storageReady
  by_cases h : d.type = CBType.image
  · cases hv : d.value <;> simp [h, hv]
  · by_cases h2 : d.type = CBType.files
    · cases hv : d.value <;> simp [h, h2, hv]
    · simp [h, h2]

/-- For an image candidate, the storage-ready value is the durable
path of the transient capture path. -/
theorem storageReady_value_image (f : String → String) (d : HistoryRecord) (p : String)
    (ht : d.type = CBType.image) (hv : d.value = CBValue.str p) :
    (storageReady f d).value = CBValue.str (f p) := by
  unfold storageReady
  simp [ht, hv]

/-- For a files candidate, the storage-ready value is the serialized
path list. -/
theorem storageReady_value_files (f : String → String) (d : HistoryRecord) (l : List String)
    (ht : d.type = CBType.files) (hv : d.value = CBValue.paths l) :
    (storageReady f d).value = CBValue.str (jsonStringify l) := by
  unfold storageReady
  simp [ht, hv]

/-- Concrete stored image row used by the C10 counterexample: a
favorite image row under a durable path, with dimensions 100 by 50 and
2048 bytes. -/
def witImgRow : HistoryRecord :=
  { id := 9, type := CBType.image, subtype := none, group := CBGroup.image,
    value := CBValue.str "store/old.png", search := none, count := 2048,
    width := some 100, height := some 50, favorite := true, createTime := 3 }

/-- Concrete image snapshot used by the C10 counterexample: the same
dimensions and byte count under a different transient path. -/
def witImgSnap : ReadClipboard :=
  { text := none, rtf := none, html := none,
    image := some { count := 2048, value := "tmpB.png", width := 100, height := 50 },
    files := none }

/-- Concrete pipeline context used by the C10 counterexample. -/
def witImgCtx : PipeCtx :=
  { cctx := witClassify, fullNameFn := fun s => String.append "store/" s,
    store := [witImgRow], filter := GroupFilter.all, list := [] }

/-- Candidate record classified from the C10 image snapshot. -/
def witImgData : HistoryRecord :=
  { id := 1, type := CBType.image, subtype := none, group := CBGroup.image,
    value := CBValue.str "tmpB.png", search := none, count := 2048,
    width := some 100, height := some 50, favorite := false, createTime := 100 }

/-- Counterexample to C10 as stated: in a reconciling pass the list
entry and the stored record of the same id 9 disagree on favorite (the
entry carries the new capture's false, the row keeps true), so not all
fields besides value are equal; the entry does keep the transient
capture path. -/
theorem claim10_clone_counterexample :
    (processRead witImgCtx (Except.ok witImgSnap)).list.map HistoryRecord.id = [9] ∧
    (processRead witImgCtx (Except.ok witImgSnap)).store.map HistoryRecord.id = [9] ∧
    (processRead witImgCtx (Except.ok witImgSnap)).list.map HistoryRecord.favorite = [false] ∧
    (processRead witImgCtx (Except.ok witImgSnap)).store.map HistoryRecord.favorite = [true] ∧
    (processRead witImgCtx (Except.ok witImgSnap)).list.map HistoryRecord.value =
      [CBValue.str "tmpB.png"] :=
  ⟨rfl, rfl, rfl, rfl, rfl⟩

/-- C10 amended: the storage-ready projection touches only the deep
clone: it keeps every field but value, so the candidate itself is never
mutated. After a visible fresh insert the list entry is the candidate
itself, still carrying the transient image path or the files path
array, while the row appended to the store is the storage-ready
projection (durable path, or serialized path list), every other field
equal. After a visible reconcile the list entry is the candidate's
fields under the matched id, still carrying the transient value, while
the store keeps the matched row's own fields and refreshes only its
createTime. -/
theorem claim10_clone_isolation (ctx : PipeCtx) (r : ReadClipboard) (data : HistoryRecord)
    (hb : buildRecord ctx.cctx r = some data)
    (hz : ¬(data.type = CBType.image ∧ data.count = 0)) :
    ((storageReady ctx.fullNameFn data).id = data.id ∧
      (storageReady ctx.fullNameFn data).type = data.type ∧
      (storageReady ctx.fullNameFn data).subtype = data.subtype ∧
      (storageReady ctx.fullNameFn data).group = data.group ∧
      (storageReady ctx.fullNameFn data).search = data.search ∧
      (storageReady ctx.fullNameFn data).count = data.count ∧
      (storageReady ctx.fullNameFn data).width = data.width ∧
      (storageReady ctx.fullNameFn data).height = data.height ∧
      (storageReady ctx.fullNameFn data).favorite = data.favorite ∧
      (storageReady ctx.fullNameFn data).createTime = data.createTime) ∧
    (∀ p, data.type = CBType.image → data.value = CBValue.str p →
      (storageReady ctx.fullNameFn data).value = CBValue.str (ctx.fullNameFn p)) ∧
    (∀ l, data.type = CBType.files → data.value = CBValue.paths l →
      (storageReady ctx.fullNameFn data).value = CBValue.str (jsonStringify l)) ∧
    (ctx.store.find? (dedupWhere data (storageReady ctx.fullNameFn data)) = none →
      (ctx.filter = GroupFilter.all ∨ ctx.filter = GroupFilter.group data.group) →
      (processRead ctx (Except.ok r)).list.head? = some data ∧
      (processRead ctx (Except.ok r)).store =
        ctx.store ++ [storageReady ctx.fullNameFn data]) ∧
    (∀ m, ctx.store.find? (dedupWhere data (storageReady ctx.fullNameFn data)) = some m →
      (ctx.filter = GroupFilter.all ∨ ctx.filter = GroupFilter.group data.group) →
      (processRead ctx (Except.ok r)).list.head? = some { data with id := m.id } ∧
      (processRead ctx (Except.ok r)).store = ctx.store.map (fun row =>
        if row.id = m.id then { row with createTime := data.createTime } else row)) := by
  have hne := snapshotEmpty_false_of_buildRecord ctx.cctx r data hb
  refine ⟨storageReady_frame ctx.fullNameFn data, ?_, ?_, ?_, ?_⟩
  · intro p ht hv
    exact storageReady_value_image ctx.fullNameFn data p ht hv
  · intro l ht hv
    exact storageReady_value_files ctx.fullNameFn data l ht hv
  · intro hm hv
    simp [processRead, hne, hb, hz, hm, hv]
  · intro m hm hv
    simp [processRead, hne, hb, hz, hm, hv]

/-- Witness for the amended C10: the concrete reconciling image pass
puts the candidate's fields under the stored id 9 at the front of the
list, keeping the transient path, while the store keeps the favorite
row and refreshes only its createTime. -/
theorem claim10_clone_isolation_witness :
    (processRead witImgCtx (Except.ok witImgSnap)).list.head? =
      some { witImgData with id := 9 } ∧
    (processRead witImgCtx (Except.ok witImgSnap)).store =
      [{ witImgRow with createTime := 100 }] := by
  have h := claim10_clone_isolation witImgCtx witImgSnap witImgData rfl (by decide)
  have hc := h.2.2.2.2 witImgRow rfl (Or.inl rfl)
  exact ⟨hc.1, by rw [hc.2]; rfl⟩

/-- Claim-side plain-text projection: the first non-empty entry of the
given candidates, the empty string when there is none. -/
def specFirstNonEmpty : List (Option String) → String
  | [] => ""
  | some s :: rest => if s = "" then specFirstNonEmpty rest else s
  | none :: rest => specFirstNonEmpty rest

/-- The JavaScript fallback chain of branch six equals the claim-side
first-non-empty projection over search, html payload, rtf payload. -/
theorem jsOr_chain_eq_specFirstNonEmpty (a b c : Option String) :
    jsOr a (jsOr b (jsOr c "")) = specFirstNonEmpty [a, b, c] := by
  cases a <;> cases b <;> cases c <;> simp [jsOr, specFirstNonEmpty]

/-- C2: the classifier follows the fixed branch order. Files win; else
html with the copy-as-plain-text preference off; else rtf with it off;
else text, with subtype classification; else image; else, with the
preference on and html or rtf present, a synthesized text record whose
value is the first non-empty of the search projection, the html payload
and the rtf payload, whose count is that projection's length, and which
gets subtype classification; and when no branch matches, no record is
produced and a pass over the snapshot leaves list and store unchanged. -/
theorem claim2_classifier_order (c : ClassifyCtx) (r : ReadClipboard) :
    (∀ f, r.files = some f →
      ∃ rec, buildRecord c r = some rec ∧ rec.type = CBType.files ∧
        rec.group = CBGroup.files) ∧
    (∀ h, r.files = none → r.html = some h → c.copyPlain = false →
      ∃ rec, buildRecord c r = some rec ∧ rec.type = CBType.html) ∧
    (∀ rt, r.files = none → r.html = none → r.rtf = some rt → c.copyPlain = false →
      ∃ rec, buildRecord c r = some rec ∧ rec.type = CBType.rtf) ∧
    (∀ t, r.files = none → (r.html = none ∨ c.copyPlain = true) →
      (r.rtf = none ∨ c.copyPlain = true) → r.text = some t →
      ∃ rec, buildRecord c r = some rec ∧ rec.type = CBType.text ∧
        rec.subtype = getClipboardTextSubtype c t.value) ∧
    (∀ i, r.files = none → (r.html = none ∨ c.copyPlain = true) →
      (r.rtf = none ∨ c.copyPlain = true) → r.text = none → r.image = some i →
      ∃ rec, buildRecord c r = some rec ∧ rec.type = CBType.image ∧
        rec.group = CBGroup.image) ∧
    (r.files = none → r.text = none → r.image = none → c.copyPlain = true →
      (r.html.isSome ∨ r.rtf.isSome) →
      ∃ rec, buildRecord c r = some rec ∧ rec.type = CBType.text ∧
        rec.value = CBValue.str (specFirstNonEmpty
          [r.text.map FormatItem.value, r.html.map FormatItem.value,
           r.rtf.map FormatItem.value]) ∧
        rec.count = (specFirstNonEmpty
          [r.text.map FormatItem.value, r.html.map FormatItem.value,
           r.rtf.map FormatItem.value]).length ∧
        rec.subtype = getClipboardTextSubtype c (specFirstNonEmpty
          [r.text.map FormatItem.value, r.html.map FormatItem.value,
           r.rtf.map FormatItem.value])) ∧
    (r.files = none → (r.html = none ∨ c.copyPlain = true) →
      (r.rtf = none ∨ c.copyPlain = true) → r.text = none → r.image = none →
      ¬(c.copyPlain = true ∧ (r.html.isSome ∨ r.rtf.isSome)) →
      buildRecord c r = none ∧
      ∀ ctx : PipeCtx, ctx.cctx = c →
        (processRead ctx (Except.ok r)).list = ctx.list ∧
        (processRead ctx (Except.ok r)).store = ctx.store) := by
  refine ⟨?_, ?_, ?_, ?_, ?_, ?_, ?_⟩
  · intro f hf
    refine
      ⟨{ id := c.newId, type := CBType.files, subtype := none, group := CBGroup.files,
         value := CBValue.paths f.value, search := some (String.intercalate " " f.value),
         count := f.count, width := none, height := none, favorite := false,
         createTime := c.now }, ?_, rfl, rfl⟩
    simp [buildRecord, hf]
  · intro h hf hh hcp
    refine
      ⟨{ id := c.newId, type := CBType.html, subtype := none, group := CBGroup.text,
         value := CBValue.str h.value, search := r.text.map FormatItem.value, count := h.count,
         width := none, height := none, favorite := false, createTime := c.now }, ?_, rfl⟩
    simp [buildRecord, hf, hh, hcp]
  · intro rt hf hh hr hcp
    refine
      ⟨{ id := c.newId, type := CBType.rtf, subtype := none, group := CBGroup.text,
         value := CBValue.str rt.value, search := r.text.map FormatItem.value, count := rt.count,
         width := none, height := none, favorite := false, createTime := c.now }, ?_, rfl⟩
    simp [buildRecord, hf, hh, hr, hcp]
  · intro t hf hh hr ht
    refine
      ⟨{ id := c.newId, type := CBType.text,
         subtype := getClipboardTextSubtype c t.value, group := CBGroup.text,
         value := CBValue.str t.value, search := r.text.map FormatItem.value, count := t.count,
         width := none, height := none, favorite := false, createTime := c.now }, ?_, rfl, rfl⟩
    rcases hh with hh | hh <;> rcases hr with hr | hr <;>
      cases hhtml : r.html <;> cases hrtf : r.rtf <;>
      simp_all [buildRecord]
  · intro i hf hh hr ht hi
    refine
      ⟨{ id := c.newId, type := CBType.image, subtype := none, group := CBGroup.image,
         value := CBValue.str i.value, search := r.text.map FormatItem.value, count := i.count,
         width := some i.width, height := some i.height, favorite := false,
         createTime := c.now }, ?_, rfl, rfl⟩
    rcases hh with hh | hh <;> rcases hr with hr | hr <;>
      cases hhtml : r.html <;> cases hrtf : r.rtf <;>
      simp_all [buildRecord]
  · intro hf ht hi hcp hpresent
    refine
      ⟨{ id := c.newId, type := CBType.text,
         subtype := getClipboardTextSubtype c (specFirstNonEmpty
           [r.text.map FormatItem.value, r.html.map FormatItem.value,
            r.rtf.map FormatItem.value]), group := CBGroup.text,
         value := CBValue.str (specFirstNonEmpty
           [r.text.map FormatItem.value, r.html.map FormatItem.value,
            r.rtf.map FormatItem.value]),
         search := r.text.map FormatItem.value,
         count := (specFirstNonEmpty
           [r.text.map FormatItem.value, r.html.map FormatItem.value,
            r.rtf.map FormatItem.value]).length,
         width := none, height := none, favorite := false,
         createTime := c.now }, ?_, rfl, rfl, rfl, rfl⟩
    rw [← jsOr_chain_eq_specFirstNonEmpty]
    cases hhtml : r.html <;> cases hrtf : r.rtf <;>
      simp_all [buildRecord]
  · intro hf hh hr ht hi hno
    have hbr : buildRecord c r = none := by
      rcases hh with hh | hh <;> rcases hr with hr | hr <;>
        cases hhtml : r.html <;> cases hrtf : r.rtf <;>
        simp_all [buildRecord]
    refine ⟨hbr, ?_⟩
    intro ctx hc
    cases hsnap : snapshotEmpty r <;>
      simp [processRead, hsnap, hc, hbr]

/-- Snapshot with both html and plain text, used by the C2 witness. -/
def witHtmlTextSnap : ReadClipboard :=
  { text := some { count := 2, value := "hi" }, rtf := none,
    html := some { count := 2, value := "bold-hi" }, image := none, files := none }

/-- Snapshot with only html, used by the C2 witness for the
synthesized-text branch. -/
def witHtmlOnlySnap : ReadClipboard :=
  { text := none, rtf := none, html := some { count := 7, value := "bold-hi" },
    image := none, files := none }

/-- Witness for C2: with the preference off, an html plus text snapshot
classifies as html; with it on, an html-only snapshot synthesizes a
text record from the projection. -/
theorem claim2_classifier_order_witness :
    (∃ rec, buildRecord witClassify witHtmlTextSnap = some rec ∧
      rec.type = CBType.html) ∧
    (∃ rec, buildRecord { witClassify with copyPlain := true } witHtmlOnlySnap = some rec ∧
      rec.type = CBType.text ∧
      rec.value = CBValue.str (specFirstNonEmpty
        [witHtmlOnlySnap.text.map FormatItem.value,
         witHtmlOnlySnap.html.map FormatItem.value,
         witHtmlOnlySnap.rtf.map FormatItem.value]) ∧
      rec.count = (specFirstNonEmpty
        [witHtmlOnlySnap.text.map FormatItem.value,
         witHtmlOnlySnap.html.map FormatItem.value,
         witHtmlOnlySnap.rtf.map FormatItem.value]).length ∧
      rec.subtype = getClipboardTextSubtype { witClassify with copyPlain := true }
        (specFirstNonEmpty
          [witHtmlOnlySnap.text.map FormatItem.value,
           witHtmlOnlySnap.html.map FormatItem.value,
           witHtmlOnlySnap.rtf.map FormatItem.value])) := by
  constructor
  · exact (claim2_classifier_order witClassify witHtmlTextSnap).2.1
      { count := 2, value := "bold-hi" } rfl rfl rfl
  · exact (claim2_classifier_order { witClassify with copyPlain := true }
      witHtmlOnlySnap).2.2.2.2.2.1 rfl rfl rfl rfl (Or.inl rfl)

/-- A format slot whose read succeeded. -/
def slotOk {α : Type} : Slot α → Bool
  | Slot.ok _ => true
  | _ => false

/-- A format slot whose probe or read threw. -/
def slotFail {α : Type} : Slot α → Bool
  | Slot.fail _ => true
  | _ => false

/-- The Windows fallback contributes an image to the snapshot. -/
def winCaptured (env : AttemptEnv) : Bool :=
  env.hasWin &&
    (match env.winImage with
     | some w => decide (0 < w.size)
     | none => false)

/-- An image was captured in the attempt: primary read succeeded, or
the primary probe was silent and the Windows fallback contributed. -/
def imageCaptured (env : AttemptEnv) : Bool :=
  slotOk env.image || (decide (env.image = Slot.absent) && winCaptured env)

/-- The attempt raised a fatal failure. -/
def attemptFails (env : AttemptEnv) : Bool :=
  match readAttempt env with
  | Except.error _ => true
  | Except.ok _ => false

/-- The fallback fold-in is present exactly when the fallback probe
answered yes with a read of nonzero size. -/
theorem winFold_isSome (hw : Bool) (wi : Option ImgRead) :
    (winFold hw wi).isSome =
      (hw && (match wi with
              | some w => decide (0 < w.size)
              | none => false)) := by
  cases hw <;> cases wi <;> simp [winFold]
  split <;> simp_all

/-- C3: within one attempt, a text failure is always fatal; an rtf or
html failure is fatal exactly when no text was captured; an image
failure is fatal exactly when none of text, html, rtf was captured; a
file-list failure is fatal exactly when none of text, html, rtf, image
was captured; and a tolerated failure leaves the rest of the snapshot
exactly as if the failing format had been absent (with the fallback
probe suppressed in the image case, as a failing primary read skips the
fallback). -/
theorem claim3_escalation (env : AttemptEnv) :
    (attemptFails env =
      (slotFail env.text ||
       (slotFail env.rtf && !slotOk env.text) ||
       (slotFail env.html && !slotOk env.text) ||
       (slotFail env.image && !(slotOk env.text || slotOk env.html || slotOk env.rtf)) ||
       (slotFail env.files &&
         !(slotOk env.text || slotOk env.html || slotOk env.rtf || imageCaptured env)))) ∧
    (slotOk env.text = true → ∀ e,
      readAttempt { env with rtf := Slot.fail e } =
        readAttempt { env with rtf := Slot.absent }) ∧
    (slotOk env.text = true → ∀ e,
      readAttempt { env with html := Slot.fail e } =
        readAttempt { env with html := Slot.absent }) ∧
    ((slotOk env.text || slotOk env.rtf || slotOk env.html) = true → ∀ e,
      readAttempt { env with image := Slot.fail e } =
        readAttempt { env with image := Slot.absent, hasWin := false }) ∧
    ((slotOk env.text || slotOk env.rtf || slotOk env.html || imageCaptured env) = true →
      ∀ e, readAttempt { env with files := Slot.fail e } =
        readAttempt { env with files := Slot.absent }) := by
  obtain ⟨t, r, h, i, hw, wi, f⟩ := env
  refine ⟨?_, ?_, ?_, ?_, ?_⟩
  · cases t <;> cases r <;> cases h <;> cases i <;> cases f <;>
      simp [attemptFails, readAttempt, textStage, rtfStage, htmlStage, imageStage,
        filesStage, slotOk, slotFail, imageCaptured, winCaptured, winFold_isSome] <;>
      cases hw <;> cases wi <;> simp_all [winFold] <;> rename_i w <;>
      by_cases hsz : 0 < w.size <;> simp_all
  · intro hok e
    cases t <;> simp_all [readAttempt, textStage, rtfStage, slotOk]
  · intro hok e
    cases t <;> simp_all [readAttempt, textStage, rtfStage, htmlStage, slotOk]
  · intro hok e
    cases t <;> cases r <;> cases h <;>
      simp_all [readAttempt, textStage, rtfStage, htmlStage, imageStage, slotOk, winFold]
  · intro hok e
    cases t <;> cases r <;> cases h <;> cases i <;>
      simp_all [readAttempt, textStage, rtfStage, htmlStage, imageStage, filesStage,
        slotOk, imageCaptured, winCaptured, winFold_isSome]

/-- Concrete attempt environment used by the C3 witness: text read ok,
rtf read throwing. -/
def witAttemptEnv : AttemptEnv :=
  { text := Slot.ok "hi", rtf := Slot.fail 7, html := Slot.absent,
    image := Slot.absent, hasWin := false, winImage := none, files := Slot.absent }

/-- Witness for C3: with text captured, a throwing rtf read is
tolerated and the attempt behaves as if rtf were absent. -/
theorem claim3_escalation_witness :
    attemptFails witAttemptEnv = false ∧
    readAttempt { witAttemptEnv with rtf := Slot.fail 7 } =
      readAttempt { witAttemptEnv with rtf := Slot.absent } := by
  constructor
  · have h := (claim3_escalation witAttemptEnv).1
    rw [h]
    rfl
  · exact (claim3_escalation witAttemptEnv).2.1 rfl 7

/-- An attempt fails exactly when it surfaces some error. -/
theorem attemptFails_iff (env : AttemptEnv) :
    attemptFails env = true ↔ ∃ e, readAttempt env = Except.error e := by
  unfold attemptFails
  cases h : readAttempt env <;> simp

/-- A pass whose read succeeded never emits the read-failure warning. -/
theorem warnReadFailed_not_mem_ok (ctx : PipeCtx) (r : ReadClipboard) :
    Effect.warnReadFailed ∉ (processRead ctx (Except.ok r)).effects := by
  cases hsnap : snapshotEmpty r
  · cases hb : buildRecord ctx.cctx r with
    | none => simp [processRead, hsnap, hb]
    | some data =>
      by_cases hz : data.type = CBType.image ∧ data.count = 0
      · simp [processRead, hsnap, hb, hz]
      · by_cases hv : ctx.filter = GroupFilter.all ∨ ctx.filter = GroupFilter.group data.group <;>
          cases hm : ctx.store.find? (dedupWhere data (storageReady ctx.fullNameFn data)) <;>
          simp [processRead, hsnap, hb, hz, hm, hv]
  · simp [processRead, hsnap]

/-- Per-fuel shape of the retry loop: at most fuel attempts are made,
at least one when there is fuel, and the delays are exactly one
RETRY_DELAY_MS between consecutive attempts. -/
theorem retryFrom_shape (envs : Nat → AttemptEnv) :
    ∀ fuel attempt le, (retryFrom envs fuel attempt le).attempts ≤ fuel ∧
      (1 ≤ fuel → 1 ≤ (retryFrom envs fuel attempt le).attempts) ∧
      (retryFrom envs fuel attempt le).delays =
        List.replicate ((retryFrom envs fuel attempt le).attempts - 1) RETRY_DELAY_MS := by
  intro fuel
  induction fuel with
  | zero => intro attempt le; simp [retryFrom]
  | succ n ih =>
    intro attempt le
    cases h : readAttempt (envs attempt) with
    | ok r => simp [retryFrom, h]
    | error e =>
      obtain ⟨iha, ihb, ihc⟩ := ih (attempt + 1) (some e)
      refine ⟨?_, ?_, ?_⟩
      · simp only [retryFrom, h]
        omega
      · intro _
        simp only [retryFrom, h]
        omega
      · simp only [retryFrom, h]
        rcases Nat.eq_zero_or_pos n with hn | hn
        · subst hn
          simp [retryFrom]
        · have hone : 1 ≤ (retryFrom envs n (attempt + 1) (some e)).attempts := ihb hn
          have hnz : n ≠ 0 := by omega
          simp only [hnz, if_true, ne_eq, not_false_iff]
          rw [ihc]
          have : (retryFrom envs n (attempt + 1) (some e)).attempts + 1 - 1 =
              ((retryFrom envs n (attempt + 1) (some e)).attempts - 1) + 1 := by omega
          simp [this, List.replicate_succ]

/-- C4: the whole read is attempted at most RETRY_COUNT times with one
RETRY_DELAY_MS delay between consecutive attempts; when the first
succeeding attempt is attempt k, its snapshot is surfaced and the pass
emits no read-failure warning; when all three attempts fail, the last
attempt's error is surfaced, the pass emits exactly the one
read-failure warning and mutates neither list nor store. -/
theorem claim4_retry_policy (ctx : PipeCtx) (envs : Nat → AttemptEnv) :
    ((readWithRetry envs).attempts ≤ RETRY_COUNT ∧
      (readWithRetry envs).delays =
        List.replicate ((readWithRetry envs).attempts - 1) RETRY_DELAY_MS) ∧
    (∀ k snap, 1 ≤ k → k ≤ RETRY_COUNT →
      (∀ j, 1 ≤ j → j < k → attemptFails (envs j) = true) →
      readAttempt (envs k) = Except.ok snap →
      (readWithRetry envs).result = Except.ok snap ∧
      Effect.warnReadFailed ∉ (runPipeline ctx envs).effects) ∧
    (∀ e1 e2 e3,
      readAttempt (envs 1) = Except.error e1 →
      readAttempt (envs 2) = Except.error e2 →
      readAttempt (envs 3) = Except.error e3 →
      (readWithRetry envs).result = Except.error e3 ∧
      (readWithRetry envs).attempts = 3 ∧
      (readWithRetry envs).delays = [RETRY_DELAY_MS, RETRY_DELAY_MS] ∧
      (runPipeline ctx envs).effects = [Effect.warnReadFailed] ∧
      (runPipeline ctx envs).list = ctx.list ∧
      (runPipeline ctx envs).store = ctx.store) := by
  refine ⟨?_, ?_, ?_⟩
  · obtain ⟨ha, _, hc⟩ := retryFrom_shape envs RETRY_COUNT 1 none
    exact ⟨ha, hc⟩
  · intro k snap hk1 hk3 hfail hok
    have hk3' : k ≤ 3 := hk3
    have hres : (readWithRetry envs).result = Except.ok snap := by
      interval_cases k
      · simp [readWithRetry, RETRY_COUNT, retryFrom, hok]
      · obtain ⟨e1, he1⟩ := (attemptFails_iff (envs 1)).1 (hfail 1 (by omega) (by omega))
        simp [readWithRetry, RETRY_COUNT, retryFrom, he1, hok]
      · obtain ⟨e1, he1⟩ := (attemptFails_iff (envs 1)).1 (hfail 1 (by omega) (by omega))
        obtain ⟨e2, he2⟩ := (attemptFails_iff (envs 2)).1 (hfail 2 (by omega) (by omega))
        simp [readWithRetry, RETRY_COUNT, retryFrom, he1, he2, hok]
    refine ⟨hres, ?_⟩
    have : runPipeline ctx envs = processRead ctx (Except.ok snap) := by
      rw [runPipeline, hres]
    rw [this]
    exact warnReadFailed_not_mem_ok ctx snap
  · intro e1 e2 e3 h1 h2 h3
    have hres : readWithRetry envs =
        { result := Except.error e3, attempts := 3,
          delays := [RETRY_DELAY_MS, RETRY_DELAY_MS] } := by
      simp [readWithRetry, RETRY_COUNT, retryFrom, h1, h2, h3]
    refine ⟨by rw [hres], by rw [hres], by rw [hres], ?_, ?_, ?_⟩ <;>
      · rw [runPipeline, hres]
        simp [processRead]

/-- Attempt environment whose text read throws with error token k. -/
def witFailEnvAt (k : Nat) : AttemptEnv :=
  { text := Slot.fail k, rtf := Slot.absent, html := Slot.absent,
    image := Slot.absent, hasWin := false, winImage := none, files := Slot.absent }

/-- Attempt environments for the C4 witness: the first two attempts
throw, the third succeeds with the text hi. -/
def witEnvs : Nat → AttemptEnv := fun k =>
  if k = 3 then
    { text := Slot.ok "hi", rtf := Slot.absent, html := Slot.absent,
      image := Slot.absent, hasWin := false, winImage := none, files := Slot.absent }
  else witFailEnvAt k

/-- Witness for C4: two throwing attempts then a success surface the
third snapshot with no warning; three throwing attempts surface the
last error with exactly one warning and untouched state. -/
theorem claim4_retry_policy_witness :
    ((readWithRetry witEnvs).result = Except.ok
      { text := some { count := 2, value := "hi" }, rtf := none, html := none,
        image := none, files := none } ∧
      Effect.warnReadFailed ∉ (runPipeline witEmptyCtx witEnvs).effects) ∧
    ((readWithRetry witFailEnvAt).result = Except.error 3 ∧
      (runPipeline witEmptyCtx witFailEnvAt).effects = [Effect.warnReadFailed] ∧
      (runPipeline witEmptyCtx witFailEnvAt).list = [] ∧
      (runPipeline witEmptyCtx witFailEnvAt).store = []) := by
  constructor
  · exact (claim4_retry_policy witEmptyCtx witEnvs).2.1 3
      { text := some { count := 2, value := "hi" }, rtf := none, html := none,
        image := none, files := none }
      (by decide) (by decide)
      (by intro j hj1 hj2; interval_cases j <;> rfl)
      rfl
  · have h := (claim4_retry_policy witEmptyCtx witFailEnvAt).2.2 1 2 3 rfl rfl rfl
    exact ⟨h.1, h.2.2.2.1, h.2.2.2.2.1, h.2.2.2.2.2⟩

/-- A timer firing never touches the beforeRead counter. -/
theorem fireTimer_reads (dur : Nat → Nat) (s : DebSt) (f : Nat) :
    (fireTimer dur s f).reads = s.reads := by
  unfold fireTimer
  split <;> rfl

/-- Each notification fires beforeRead exactly once, synchronously. -/
theorem notifyAt_reads (dur : Nat → Nat) (s : DebSt) (t : Nat) :
    (notifyAt dur s t).reads = s.reads + 1 := by
  unfold notifyAt
  cases s.timer
  · rfl
  · dsimp only
    split <;> simp [fireTimer_reads]

/-- Folding notifications adds one beforeRead per notification. -/
theorem foldl_notifyAt_reads (dur : Nat → Nat) (ts : List Nat) :
    ∀ s : DebSt, (ts.foldl (notifyAt dur) s).reads = s.reads + ts.length := by
  induction ts with
  | nil => intro s; simp
  | cons t ts ih =>
    intro s
    simp only [List.foldl_cons, ih, notifyAt_reads, List.length_cons]
    omega

/-- The final flush never touches the beforeRead counter. -/
theorem flushTimer_reads (dur : Nat → Nat) (s : DebSt) :
    (flushTimer dur s).reads = s.reads := by
  unfold flushTimer
  cases s.timer <;> simp [fireTimer_reads]

/-- Within a burst, every further notification lands before the timer
fires, so the fold only restarts the timer and counts beforeRead. -/
theorem burst_foldl (dur : Nat → Nat) :
    ∀ (rest : List Nat) (t : Nat) (s : DebSt),
      s.timer = some (t + DEBOUNCE_MS) →
      List.Chain (fun a b => b < a + DEBOUNCE_MS) t rest →
      rest.foldl (notifyAt dur) s =
        { s with
            timer := some (rest.getLastD t + DEBOUNCE_MS),
            reads := s.reads + rest.length } := by
  intro rest
  induction rest with
  | nil =>
    intro t s hts _
    cases s
    simp_all [List.getLastD]
  | cons t2 rest2 ih =>
    intro t s hts hchain
    cases hchain with
    | cons hlt hchain2 =>
      simp only [List.foldl_cons]
      have hstep : notifyAt dur s t2 =
          { s with timer := some (t2 + DEBOUNCE_MS), reads := s.reads + 1 } := by
        unfold notifyAt
        rw [hts]
        have hnlt : ¬ (t + DEBOUNCE_MS < t2) := by omega
        simp [hnlt]
      rw [hstep, ih t2 _ rfl hchain2, List.getLastD_cons]
      cases s
      dsimp only
      congr 1
      simp only [List.length_cons]
      omega

/-- With gaps beyond the debounce window and passes no longer than the
window, each pending timer fires idle before the next notification, so
every notification yields exactly one invocation. -/
theorem spaced_foldl (dur : Nat → Nat) (hdur : ∀ k, dur k ≤ DEBOUNCE_MS) :
    ∀ (rest : List Nat) (t : Nat) (s : DebSt),
      s.timer = some (t + DEBOUNCE_MS) →
      s.busyEnd ≤ t + DEBOUNCE_MS →
      List.Chain (fun a b => a + DEBOUNCE_MS < b) t rest →
      flushTimer dur (rest.foldl (notifyAt dur) s) =
        { s with
            timer := none,
            invs := s.invs ++ (t :: rest).map (fun x => x + DEBOUNCE_MS),
            busyEnd := rest.getLastD t + DEBOUNCE_MS + dur (s.invs.length + rest.length),
            reads := s.reads + rest.length } := by
  intro rest
  induction rest with
  | nil =>
    intro t s hts hbusy _
    obtain ⟨tm, be, iv, sk, rd⟩ := s
    simp only at hts hbusy
    subst hts
    have hnlt : ¬ (t + DEBOUNCE_MS < be) := by omega
    simp [flushTimer, fireTimer, hnlt, List.getLastD]
  | cons t2 rest2 ih =>
    intro t s hts hbusy hchain
    cases hchain with
    | cons hlt hchain2 =>
      obtain ⟨tm, be, iv, sk, rd⟩ := s
      simp only at hts hbusy
      subst hts
      simp only [List.foldl_cons]
      have hnlt : ¬ (t + DEBOUNCE_MS < be) := by omega
      have hstep : notifyAt dur ⟨some (t + DEBOUNCE_MS), be, iv, sk, rd⟩ t2 =
          ⟨some (t2 + DEBOUNCE_MS), t + DEBOUNCE_MS + dur iv.length,
            iv ++ [t + DEBOUNCE_MS], sk, rd + 1⟩ := by
        unfold notifyAt
        simp [hlt, fireTimer, hnlt]
      rw [hstep]
      have hbusy2 : t + DEBOUNCE_MS + dur iv.length ≤ t2 + DEBOUNCE_MS := by
        have := hdur iv.length
        omega
      rw [ih t2 _ rfl hbusy2 hchain2]
      have hlen : (iv ++ [t + DEBOUNCE_MS]).length + rest2.length =
          iv.length + (t2 :: rest2).length := by
        simp only [List.length_append, List.length_cons, List.length_nil]
        omega
      dsimp only
      rw [hlen, List.getLastD_cons]
      simp only [List.length_cons, List.map_cons]
      congr 1
      · simp
      · omega

/-- Consecutive recorded invocation starts are separated by at least
the earlier pass's duration: at most one pass is in flight. -/
def serialOK (dur : Nat → Nat) (l : List Nat) : Prop :=
  ∀ i, (h : i + 1 < l.length) → l.get ⟨i, by omega⟩ + dur i ≤ l.get ⟨i + 1, h⟩

/-- The busy horizon is exactly the last started pass's end instant. -/
def busyInv (dur : Nat → Nat) (s : DebSt) : Prop :=
  (s.invs = [] → s.busyEnd = 0) ∧
  ∀ h : s.invs ≠ [], s.busyEnd = s.invs.getLast h + dur (s.invs.length - 1)

/-- A timer firing preserves both serialization invariants: a skip
changes nothing, and a started pass begins no earlier than the busy
horizon. -/
theorem fireTimer_invariant (dur : Nat → Nat) (s : DebSt) (f : Nat)
    (h1 : serialOK dur s.invs) (h2 : busyInv dur s) :
    serialOK dur (fireTimer dur s f).invs ∧ busyInv dur (fireTimer dur s f) := by
  unfold fireTimer
  split
  · exact ⟨h1, h2⟩
  · rename_i hge
    have hge2 : s.busyEnd ≤ f := Nat.le_of_not_lt hge
    constructor
    · intro i hi
      simp only [List.length_append, List.length_cons, List.length_nil] at hi
      by_cases hlt : i + 1 < s.invs.length
      · have hil : i < s.invs.length := by omega
        have hia : i < (s.invs ++ [f]).length := by simp; omega
        have hia2 : i + 1 < (s.invs ++ [f]).length := by simp; omega
        rw [List.get_append i hil, List.get_append (i + 1) hlt]
        exact h1 i hlt
      · have hieq : i + 1 = s.invs.length := by omega
        have hil : i < s.invs.length := by omega
        have hne : s.invs ≠ [] := by
          intro hnil
          rw [hnil] at hil
          exact absurd hil (by simp)
        have hlast := h2.2 hne
        have hia2 : i + 1 < (s.invs ++ [f]).length := by simp; omega
        rw [List.get_append i hil]
        have hgetf : (s.invs ++ [f]).get ⟨i + 1, hia2⟩ = f := by
          have hfin : (⟨i + 1, hia2⟩ : Fin (s.invs ++ [f]).length) =
              ⟨s.invs.length, by simp⟩ := Fin.mk_eq_mk.mpr hieq
          rw [hfin]
          exact List.get_of_append rfl rfl
        rw [hgetf]
        have hgl : s.invs.getLast hne = s.invs.get ⟨s.invs.length - 1, by omega⟩ :=
          List.getLast_eq_get s.invs hne
        have hi' : s.invs.get ⟨i, hil⟩ = s.invs.getLast hne := by
          have hfin2 : (⟨i, hil⟩ : Fin s.invs.length) =
              ⟨s.invs.length - 1, by omega⟩ := Fin.mk_eq_mk.mpr (by omega)
          rw [hfin2]
          exact hgl.symm
        rw [hi']
        have hidx : i = s.invs.length - 1 := by omega
        rw [hidx, ← hlast]
        exact hge2
    · constructor
      · intro hnil
        exact absurd hnil (by simp)
      · intro hh
        have hgl : (s.invs ++ [f]).getLast hh = f := List.getLast_concat s.invs
        simp only [hgl, List.length_append, List.length_cons, List.length_nil]
        congr 1

/-- A notification preserves both serialization invariants: it only
restarts the timer, fires a due timer, and counts beforeRead. -/
theorem notifyAt_invariant (dur : Nat → Nat) (s : DebSt) (t : Nat)
    (h : serialOK dur s.invs ∧ busyInv dur s) :
    serialOK dur (notifyAt dur s t).invs ∧ busyInv dur (notifyAt dur s t) := by
  unfold notifyAt
  cases htm : s.timer with
  | none => exact h
  | some f =>
    dsimp only
    split
    · exact fireTimer_invariant dur { s with timer := none } f h.1 h.2
    · exact h

/-- Folding a notification stream preserves both invariants. -/
theorem foldl_notifyAt_invariant (dur : Nat → Nat) (ts : List Nat) :
    ∀ s : DebSt, serialOK dur s.invs ∧ busyInv dur s →
      serialOK dur (ts.foldl (notifyAt dur) s).invs ∧
      busyInv dur (ts.foldl (notifyAt dur) s) := by
  induction ts with
  | nil => intro s h; exact h
  | cons t ts ih => intro s h; exact ih _ (notifyAt_invariant dur s t h)

/-- The final flush preserves both invariants. -/
theorem flushTimer_invariant (dur : Nat → Nat) (s : DebSt)
    (h : serialOK dur s.invs ∧ busyInv dur s) :
    serialOK dur (flushTimer dur s).invs ∧ busyInv dur (flushTimer dur s) := by
  unfold flushTimer
  cases htm : s.timer with
  | none => exact h
  | some f => exact fireTimer_invariant dur { s with timer := none } f h.1 h.2

/-- Every run of the debouncer keeps consecutive invocation starts
separated by the earlier pass's duration. -/
theorem runDeb_serialOK (dur : Nat → Nat) (ts : List Nat) :
    serialOK dur (runDeb dur ts).invs := by
  have hstart : serialOK dur debStart.invs ∧ busyInv dur debStart := by
    refine ⟨?_, ?_, ?_⟩
    · intro i hi
      simp [debStart] at hi
    · intro _
      rfl
    · intro hne
      exact absurd rfl hne
  exact (flushTimer_invariant dur _ (foldl_notifyAt_invariant dur ts debStart hstart)).1

/-- C8: every notification fires beforeRead synchronously (one
beforeRead per notification); notifications all within the debounce
window yield exactly one invocation, at the last notification plus the
debounce delay, with nothing skipped; notifications spaced beyond the
window, with passes no longer than the window, yield one invocation
each; a timer firing while a pass is running is skipped entirely,
recorded only in the skip log; and consecutive invocations never
overlap: each starts no earlier than the previous start plus the
previous pass's duration. -/
theorem claim8_debounce_serializer (dur : Nat → Nat) (ts : List Nat) (t : Nat)
    (rest : List Nat) :
    (runDeb dur ts).reads = ts.length ∧
    (List.Chain (fun a b => b < a + DEBOUNCE_MS) t rest →
      (runDeb dur (t :: rest)).invs = [rest.getLastD t + DEBOUNCE_MS] ∧
      (runDeb dur (t :: rest)).skips = []) ∧
    ((∀ k, dur k ≤ DEBOUNCE_MS) →
      List.Chain (fun a b => a + DEBOUNCE_MS < b) t rest →
      (runDeb dur (t :: rest)).invs = (t :: rest).map (fun x => x + DEBOUNCE_MS) ∧
      (runDeb dur (t :: rest)).skips = []) ∧
    (∀ (s : DebSt) (f : Nat), f < s.busyEnd →
      fireTimer dur s f = { s with skips := s.skips ++ [f] }) ∧
    serialOK dur (runDeb dur ts).invs := by
  have hfirst : ∀ t0 : Nat, notifyAt dur debStart t0 =
      { timer := some (t0 + DEBOUNCE_MS), busyEnd := 0, invs := [], skips := [],
        reads := 1 } := by
    intro t0
    rfl
  refine ⟨?_, ?_, ?_, ?_, runDeb_serialOK dur ts⟩
  · unfold runDeb
    rw [flushTimer_reads, foldl_notifyAt_reads]
    simp [debStart]
  · intro hchain
    unfold runDeb
    rw [List.foldl_cons, hfirst t, burst_foldl dur rest t _ rfl hchain]
    dsimp only [flushTimer]
    simp [fireTimer]
  · intro hdur hchain
    unfold runDeb
    rw [List.foldl_cons, hfirst t,
      spaced_foldl dur hdur rest t _ rfl (Nat.zero_le _) hchain]
    constructor <;> simp
  · intro s f hlt
    unfold fireTimer
    simp [hlt]

/-- Witness for C8: two notifications 100 ms apart give one invocation
at 400; two notifications 400 ms apart give one invocation each; a
timer firing at 3 during a pass busy until 5 is only logged as
skipped. -/
theorem claim8_debounce_serializer_witness :
    (runDeb (fun _ => 0) [0, 100]).reads = 2 ∧
    (runDeb (fun _ => 0) [0, 100]).invs = [400] ∧
    (runDeb (fun _ => 0) [0, 100]).skips = [] ∧
    (runDeb (fun _ => 0) [0, 400]).invs = [300, 700] ∧
    fireTimer (fun _ => 0)
        { timer := none, busyEnd := 5, invs := [2], skips := [], reads := 1 } 3 =
      { timer := none, busyEnd := 5, invs := [2], skips := [3], reads := 1 } := by
  have h1 := claim8_debounce_serializer (fun _ => 0) [0, 100] 0 [100]
  have h2 := claim8_debounce_serializer (fun _ => 0) [0, 400] 0 [400]
  have hburst := h1.2.1 (List.Chain.cons (by decide) List.Chain.nil)
  have hspaced := h2.2.2.1 (fun k => Nat.zero_le _)
    (List.Chain.cons (by decide) List.Chain.nil)
  exact ⟨h1.1, hburst.1, hburst.2, hspaced.1,
    h1.2.2.2.1 { timer := none, busyEnd := 5, invs := [2], skips := [], reads := 1 } 3
      (by decide)⟩
